import Mathlib

/-!
Shallow embedding of `hyperschedule/__init__.py`, the maintainer-facing
utility library for Hyperschedule scrapers, together with theorems settling
the specification claims about it.

Conventions of the embedding:
* Python exceptions are modelled by the `Except PyError` monad.  The single
  exception class `MaintainerError` of the source is `PyError.maintainerError`
  (the spec calls its construction-time uses `ConfigError` / `ParseError`).
  Runtime errors of the Python interpreter itself that the source can hit are
  modelled explicitly: `PyError.typeError` (an unsupported binary operation,
  e.g. `>=` between two objects of a class that defines no ordering methods)
  and `PyError.nameError` (evaluation of an unbound name).
* Python truthiness of heterogeneous constructor arguments is modelled by a
  small value universe `PyVal` with its coercion `PyVal.truthy`.
* `log.warn` calls are modelled by returning the list of warning messages
  alongside the result.
* Python `dict` is modelled as an association list in insertion order, with
  `dictInsert` replacing the binding in place when the key is present.
-/

namespace Hyperschedule

/-- Errors a call into the library can raise: the library's own
`MaintainerError`, or an interpreter-level `TypeError` / `NameError`. -/
inductive PyError where
  | maintainerError (msg : String)
  | typeError
  | nameError
deriving DecidableEq

/-- A universe of Python values, used where the source accepts arbitrary
truthy or falsy arguments. -/
inductive PyVal where
  | pyBool (b : Bool)
  | pyInt (n : Int)
  | pyStr (s : String)
  | pyNone
deriving DecidableEq

/-- Python truthiness: `bool(v)`. -/
def PyVal.truthy : PyVal → Bool
  | .pyBool b => b
  | .pyInt n => decide (n ≠ 0)
  | .pyStr s => !s.isEmpty
  | .pyNone => false

/-- The fields a successful `dateparser.parse` call yields (a Python
`datetime`), as far as the source consumes them. -/
structure PyDatetime where
  year : Int
  month : Int
  day : Int
  hour : Int
  minute : Int
deriving DecidableEq

/-- Outcome of `dateparser.parse(string)`: a parsed datetime, `None`, or a
raised `ValueError`.  The parser is an external library, so the embedding is
parametrised over it. -/
inductive ParseOutcome where
  | parsed (dt : PyDatetime)
  | noResult
  | valueError
deriving DecidableEq

/-- `class Date`: a specific day of the year, fields `year`, `month`, `day`.
The class defines `__init__` and `__str__` only: in particular it defines no
ordering methods (`__lt__`, `__ge__`, ...). -/
structure Date where
  year : Int
  month : Int
  day : Int
deriving DecidableEq

/-- `Date.__init__(self, string)`: parse `string`; a `None` result or a
`ValueError` from the parser becomes `MaintainerError`; on success the
object carries the parsed year, month and day. -/
def Date.init (parse : String → ParseOutcome) (string : String) :
    Except PyError Date :=
  match parse string with
  | .parsed dt => .ok ⟨dt.year, dt.month, dt.day⟩
  | .noResult => .error (.maintainerError ("Date got invalid string: " ++ string))
  | .valueError => .error (.maintainerError ("Date got invalid string: " ++ string))

/-- `Date.__str__`. -/
def Date.str (d : Date) : String :=
  toString d.year ++ "-" ++ toString d.month ++ "-" ++ toString d.day

/-- Python `>=` between two `Date` instances.  `Date` defines no rich
comparison methods, so both operands answer `NotImplemented` and the
interpreter raises `TypeError`. -/
def Date.pyGe (_a _b : Date) : Except PyError Bool :=
  .error .typeError

/-- `class Time`: a specific time of day, fields `hour`, `minute`.  Like
`Date` it defines no ordering methods. -/
structure Time where
  hour : Int
  minute : Int
deriving DecidableEq

/-- `Time.__init__(self, string)`: same parse contract as `Date.__init__`;
on success the object carries the parsed hour and minute. -/
def Time.init (parse : String → ParseOutcome) (string : String) :
    Except PyError Time :=
  match parse string with
  | .parsed dt => .ok ⟨dt.hour, dt.minute⟩
  | .noResult => .error (.maintainerError ("Time got invalid string: " ++ string))
  | .valueError => .error (.maintainerError ("Time got invalid string: " ++ string))

/-- `Time.__str__`. -/
def Time.str (t : Time) : String :=
  let hour := (t.hour - 1) % 12 + 1
  let ampm := if t.hour < 12 then "AM" else "PM"
  toString hour ++ ":" ++ toString t.minute ++ " " ++ ampm

/-- Python `>=` between two `Time` instances: no ordering methods, so
`TypeError`. -/
def Time.pyGe (_a _b : Time) : Except PyError Bool :=
  .error .typeError

/-- `class Weekdays`: a subset of the days of the week, held in the Python
set `self.days` of single-character codes. -/
structure Weekdays where
  days : List Char
deriving DecidableEq

/-- `Weekdays.CHARS = "MTWRFSU"`. -/
def Weekdays.CHARS : String := "MTWRFSU"

/-- `Weekdays.add_day(self, day)`: upper-case `day`; reject a character not
in `CHARS` with `MaintainerError`; then the body evaluates the bare name
`days` (`if day in days: ... days.add(day)`), which is unbound in the method
scope (the attribute is `self.days`), so Python raises `NameError` before
any membership test, warning or mutation can happen. -/
def Weekdays.add_day (_w : Weekdays) (day : Char) :
    Except PyError (Weekdays × List String) :=
  let d := day.toUpper
  if !(Weekdays.CHARS.toList.contains d) then
    .error (.maintainerError ("add_day got invalid day: " ++ d.toString))
  else
    .error .nameError

/-- `Weekdays.is_empty(self)`: the body is `return bool(self.days)`, the
truthiness of the set, which is `True` exactly when the set is non-empty
(contradicting the docstring "Check if there are no days"). -/
def Weekdays.is_empty (w : Weekdays) : Bool :=
  !w.days.isEmpty

/-- `class Subterm`: an immutable tuple of booleans `self.subterms`. -/
structure Subterm where
  subterms : List Bool
deriving DecidableEq

/-- `Subterm.__init__(self, *subterms)`: no arguments or no truthy argument
is a `MaintainerError`; otherwise store `tuple(map(bool, subterms))`. -/
def Subterm.init (args : List PyVal) : Except PyError Subterm :=
  if args.isEmpty then
    .error (.maintainerError "Subterm got no arguments")
  else if !(args.any PyVal.truthy) then
    .error (.maintainerError "Subterm got no truthy arguments")
  else
    .ok ⟨args.map PyVal.truthy⟩

/-- `FullTerm = Subterm(True)`. -/
def FullTerm : Except PyError Subterm := Subterm.init [.pyBool true]

/-- `FirstHalfTerm = Subterm(True, False)`. -/
def FirstHalfTerm : Except PyError Subterm :=
  Subterm.init [.pyBool true, .pyBool false]

/-- `SecondHalfTerm = Subterm(False, True)`. -/
def SecondHalfTerm : Except PyError Subterm :=
  Subterm.init [.pyBool false, .pyBool true]

/-- `FirstThirdTerm = Subterm(True, False, False)`. -/
def FirstThirdTerm : Except PyError Subterm :=
  Subterm.init [.pyBool true, .pyBool false, .pyBool false]

/-- `MiddleThirdTerm = Subterm(False, True, False)`. -/
def MiddleThirdTerm : Except PyError Subterm :=
  Subterm.init [.pyBool false, .pyBool true, .pyBool false]

/-- `LastThirdTerm = Subterm(False, False, True)`. -/
def LastThirdTerm : Except PyError Subterm :=
  Subterm.init [.pyBool false, .pyBool false, .pyBool true]

/-- `FirstAndMiddleThirdTerms = Subterm(True, True, False)`. -/
def FirstAndMiddleThirdTerms : Except PyError Subterm :=
  Subterm.init [.pyBool true, .pyBool true, .pyBool false]

/-- `MiddleAndLastThirdTerms = Subterm(False, True, True)`. -/
def MiddleAndLastThirdTerms : Except PyError Subterm :=
  Subterm.init [.pyBool false, .pyBool true, .pyBool true]

/-- `class Meeting`: one recurring meeting time of a course.  `__init__`
starts every field at `None`. -/
structure Meeting where
  start_date : Option Date
  end_date : Option Date
  weekdays : Option Weekdays
  start_time : Option Time
  end_time : Option Time
  subterm : Option Subterm
  location : Option String
deriving DecidableEq

/-- The state `Meeting.__init__` establishes before any setter runs: every
field `None`. -/
def Meeting.empty : Meeting :=
  ⟨none, none, none, none, none, none, none⟩

/-- `Meeting._check_dates(self)`: when both endpoints are set, evaluate
`self.start_date >= self.end_date` (which, `Date` having no ordering
methods, raises `TypeError`) and raise `MaintainerError` if it were true. -/
def Meeting.check_dates (m : Meeting) : Except PyError Unit :=
  match m.start_date, m.end_date with
  | some s, some e => do
    let ge ← Date.pyGe s e
    if ge then
      .error (.maintainerError
        ("Meeting start date not before end date: " ++ s.str ++ " >= " ++ e.str))
    else
      .ok ()
  | _, _ => .ok ()

/-- `Meeting._check_times(self)`: the time analogue of `_check_dates`. -/
def Meeting.check_times (m : Meeting) : Except PyError Unit :=
  match m.start_time, m.end_time with
  | some s, some e => do
    let ge ← Time.pyGe s e
    if ge then
      .error (.maintainerError
        ("Meeting start time not before end time: " ++ s.str ++ " >= " ++ e.str))
    else
      .ok ()
  | _, _ => .ok ()

/-- `Meeting.set_start_date`: store the date, then re-run `_check_dates`.
(The `isinstance` guard is discharged by the argument's type.) -/
def Meeting.set_start_date (m : Meeting) (d : Date) : Except PyError Meeting := do
  let m1 := { m with start_date := some d }
  m1.check_dates
  .ok m1

/-- `Meeting.set_end_date`: store the date, then re-run `_check_dates`. -/
def Meeting.set_end_date (m : Meeting) (d : Date) : Except PyError Meeting := do
  let m1 := { m with end_date := some d }
  m1.check_dates
  .ok m1

/-- `Meeting.set_dates`: `set_start_date` then `set_end_date`. -/
def Meeting.set_dates (m : Meeting) (s e : Date) : Except PyError Meeting := do
  let m1 ← m.set_start_date s
  m1.set_end_date e

/-- `Meeting.set_start_time`: store the time, then re-run `_check_times`. -/
def Meeting.set_start_time (m : Meeting) (t : Time) : Except PyError Meeting := do
  let m1 := { m with start_time := some t }
  m1.check_times
  .ok m1

/-- `Meeting.set_end_time`: store the time, then re-run `_check_times`. -/
def Meeting.set_end_time (m : Meeting) (t : Time) : Except PyError Meeting := do
  let m1 := { m with end_time := some t }
  m1.check_times
  .ok m1

/-- `Meeting.set_times`: `set_start_time` then `set_end_time`. -/
def Meeting.set_times (m : Meeting) (s e : Time) : Except PyError Meeting := do
  let m1 ← m.set_start_time s
  m1.set_end_time e

/-- `Meeting.set_weekdays`: raise `MaintainerError` when
`weekdays.is_empty()` answers true, else store the set. -/
def Meeting.set_weekdays (m : Meeting) (w : Weekdays) : Except PyError Meeting :=
  if w.is_empty then
    .error (.maintainerError "set_weekdays got empty Weekdays")
  else
    .ok { m with weekdays := some w }

/-- `Meeting.set_subterm`: store the subterm; no further checks run. -/
def Meeting.set_subterm (m : Meeting) (st : Subterm) : Except PyError Meeting :=
  .ok { m with subterm := some st }

/-- Modelled from the spec: `class Course` is an unimplemented stub in the
source (its `__init__` body and `get_code` are missing), so the spec's "one
catalog entry: stable identifying code (unique key), name, ...; identity =
code" supplies the shape `add_course` relies on.  Only the code and one
representative mutable field are carried. -/
structure Course where
  code : String
  name : Option String
deriving DecidableEq

/-- Modelled from the spec: `Course.get_code` returns the stable identifying
code that is the course's identity. -/
def Course.get_code (c : Course) : String := c.code

/-- Python `dict` assignment `d[k] = v` on a dict in insertion order:
replace the binding in place when the key is present, else append. -/
def dictInsert : List (String × Course) → String → Course → List (String × Course)
  | [], k, v => [(k, v)]
  | p :: rest, k, v =>
    if p.1 = k then (k, v) :: rest else p :: dictInsert rest k v

/-- Python `dict` read `d[k]` / `d.get(k)`. -/
def dictLookup : List (String × Course) → String → Option Course
  | [], _ => none
  | p :: rest, k => if p.1 = k then some p.2 else dictLookup rest k

/-- `class ScraperResult`: holds `self.courses`, the dict from course code
to `Course`.  (The `term` attribute and `set_term` are not modelled: no
claim touches them, and `set_term` references the undefined name `Term`.) -/
structure ScraperResult where
  courses : List (String × Course)
deriving DecidableEq

/-- `ScraperResult.add_course(self, course)`: warn when the code is already
a key (`log.warn("multiple courses with same code: ...")`), then assign
`self.courses[code] = course`.  The warnings the call logs are returned
alongside the updated result. -/
def ScraperResult.add_course (r : ScraperResult) (c : Course) :
    ScraperResult × List String :=
  let code := c.get_code
  (⟨dictInsert r.courses code c⟩,
   if code ∈ r.courses.map Prod.fst then
     ["multiple courses with same code: " ++ code]
   else [])

/-- Modelled from the spec: the Checkpoint Store record of §4.2/§6 — the
last known result snapshot plus the set of course codes still pending
refinement.  No checkpoint code exists in the source. -/
structure Checkpoint where
  snapshot : List (String × Course)
  pending : List String
deriving DecidableEq

/-- Modelled from the spec: outcome of one `refine(course)` call (§4.1) — a
replacement `Course`, `None` for "use input unchanged", or a failure. -/
inductive RefineOutcome where
  | refined (c : Course)
  | unchanged
  | failed
deriving DecidableEq

/-- Modelled from the spec: the two terminal states of the orchestrator's
state machine (§4.3) that a successful listing can reach. -/
inductive OrchState where
  | Completed
  | Exhausted
deriving DecidableEq

/-- Modelled from the spec: what one orchestrator invocation yields — the
merged result returned to the caller, the remaining pending set, the
checkpoint written (if any), and the terminal state. -/
structure OrchOutcome where
  result : List (String × Course)
  pending : List String
  saved : Option Checkpoint
  final : OrchState
deriving DecidableEq

/-- Insert a code into a list sorted ascending. -/
def insertSorted (s : String) : List String → List String
  | [] => [s]
  | x :: xs => if s ≤ x then s :: x :: xs else x :: insertSorted s xs

/-- Sort course codes ascending, the dispatch order §4.3 step 3 fixes. -/
def sortCodes (l : List String) : List String :=
  l.foldr insertSorted []

/-- Modelled from the spec (§4.3 step 2, Merging): for every code in the new
result that exists in the checkpoint's prior snapshot and is not pending,
copy the prior (already-refined) course; codes absent from the new run are
dropped; new codes (and still-pending ones) form the pending set. -/
def mergeStep (prior : Option Checkpoint) (runResult : List Course) :
    List (String × Course) × List String :=
  match prior with
  | none =>
    (runResult.map (fun c => (c.get_code, c)), runResult.map Course.get_code)
  | some cp =>
    (runResult.map (fun c =>
       if c.get_code ∈ cp.snapshot.map Prod.fst ∧ c.get_code ∉ cp.pending then
         (c.get_code, (dictLookup cp.snapshot c.get_code).getD c)
       else
         (c.get_code, c)),
     (runResult.map Course.get_code).filter
       (fun code => decide (code ∈ cp.pending ∨ code ∉ cp.snapshot.map Prod.fst)))

/-- Modelled from the spec (§4.3 step 3, Refining): call `refine` once per
pending code; on success merge the returned course (or keep it unchanged on
`None`) and drop the code from pending; on failure leave the code pending.
The deadline path is not taken here: every pending code gets its one
dispatch, as in a run that finishes within budget. -/
def refinePass (refine : Course → RefineOutcome) :
    List String → List (String × Course) → List (String × Course) × List String
  | [], merged => (merged, [])
  | code :: rest, merged =>
    match refine ((dictLookup merged code).getD ⟨code, none⟩) with
    | .refined c2 => refinePass refine rest (dictInsert merged code c2)
    | .unchanged => refinePass refine rest merged
    | .failed =>
      let r := refinePass refine rest merged
      (r.1, code :: r.2)

/-- Modelled from the spec (§4.3): one orchestrator invocation after a
successful `run()` — Merging against the prior checkpoint, Refining the
pending codes in ascending order, then Finalizing: empty pending transitions
to `Completed` with no checkpoint write; non-empty pending transitions to
`Exhausted` and persists snapshot plus pending. -/
def orchestrate (refine : Course → RefineOutcome) (runResult : List Course)
    (prior : Option Checkpoint) : OrchOutcome :=
  let mp := mergeStep prior runResult
  let rp := refinePass refine (sortCodes mp.2) mp.1
  if rp.2.isEmpty then
    ⟨rp.1, [], none, .Completed⟩
  else
    ⟨rp.1, rp.2, some ⟨rp.1, rp.2⟩, .Exhausted⟩

/-! ## Helper lemmas -/

theorem dictLookup_dictInsert (l : List (String × Course)) (k : String) (v : Course) :
    dictLookup (dictInsert l k v) k = some v := by
  induction l with
  | nil => simp [dictInsert, dictLookup]
  | cons p rest ih =>
    by_cases hp : p.1 = k
    · simp [dictInsert, hp, dictLookup]
    · simp [dictInsert, hp, dictLookup, ih]

theorem dictInsert_keys (l : List (String × Course)) (k : String) (v : Course) :
    (dictInsert l k v).map Prod.fst =
      if k ∈ l.map Prod.fst then l.map Prod.fst else l.map Prod.fst ++ [k] := by
  induction l with
  | nil => simp [dictInsert]
  | cons p rest ih =>
    by_cases hp : p.1 = k
    · simp [dictInsert, hp]
    · have hne : ¬(k = p.1) := fun h => hp h.symm
      by_cases hk : k ∈ rest.map Prod.fst <;>
        simp [dictInsert, hp, ih, hk, hne]

theorem dictInsert_keys_nodup (l : List (String × Course)) (k : String) (v : Course)
    (h : (l.map Prod.fst).Nodup) : ((dictInsert l k v).map Prod.fst).Nodup := by
  rw [dictInsert_keys]
  by_cases hk : k ∈ l.map Prod.fst
  · simpa [hk] using h
  · simp [hk, List.nodup_append, h]

theorem add_course_fold_nodup (cs : List Course) :
    ∀ r : ScraperResult, (r.courses.map Prod.fst).Nodup →
      (((cs.foldl (fun r c => (r.add_course c).1) r).courses.map Prod.fst)).Nodup := by
  induction cs with
  | nil => intro r h; exact h
  | cons c rest ih =>
    intro r h
    simpa [ScraperResult.add_course] using
      ih ⟨dictInsert r.courses c.get_code c⟩ (dictInsert_keys_nodup _ _ _ h)

theorem refinePass_pending_nil (refine : Course → RefineOutcome)
    (h : ∀ c, refine c ≠ .failed) (pend : List String) :
    ∀ merged, (refinePass refine pend merged).2 = [] := by
  induction pend with
  | nil => intro merged; rfl
  | cons code rest ih =>
    intro merged
    rw [refinePass]
    cases hr : refine ((dictLookup merged code).getD ⟨code, none⟩) with
    | refined c2 => exact ih _
    | unchanged => exact ih _
    | failed => exact absurd hr (h _)

theorem orchestrate_noFail (refine : Course → RefineOutcome) (runResult : List Course)
    (prior : Option Checkpoint) (h : ∀ c, refine c ≠ .failed) :
    (orchestrate refine runResult prior).pending = [] ∧
    (orchestrate refine runResult prior).saved = none ∧
    (orchestrate refine runResult prior).final = .Completed := by
  have hp := refinePass_pending_nil refine h
    (sortCodes (mergeStep prior runResult).2) (mergeStep prior runResult).1
  simp [orchestrate, hp]

/-! ## Claim theorems -/

/-- C1: the claim says a fully-set Meeting validates start strictly before
end and rejects only violations, with the library's error.  The code cannot
do this: `Date` and `Time` define no ordering methods, so the comparison in
`_check_dates` / `_check_times` raises `TypeError` whenever both endpoints
are set — here even for correctly ordered pairs (Jan 1 before Jun 1, 9:00
before 10:30). -/
theorem c1_ordering_check_raises_type_error :
    Meeting.empty.set_dates ⟨2020, 1, 1⟩ ⟨2020, 6, 1⟩ = .error .typeError ∧
    Meeting.empty.set_times ⟨9, 0⟩ ⟨10, 30⟩ = .error .typeError :=
  ⟨rfl, rfl⟩

/-- C2: the claim says adding a day already present is an idempotent
warning, never an error.  In the code `add_day` evaluates the unbound name
`days` (the attribute is `self.days`), so every add of a valid day — the
first one included — raises `NameError`. -/
theorem c2_add_day_raises_name_error :
    Weekdays.add_day ⟨[]⟩ 'M' = .error .nameError ∧
    Weekdays.add_day ⟨['M']⟩ 'M' = .error .nameError :=
  ⟨rfl, rfl⟩

/-- C3: the claim says `set_weekdays` rejects exactly the empty set.  The
code does the opposite: `is_empty` returns `bool(self.days)`, true exactly
for non-empty sets, so a non-empty `Weekdays` is rejected ("set_weekdays got
empty Weekdays") and the empty one is stored. -/
theorem c3_set_weekdays_rejects_nonempty :
    Meeting.empty.set_weekdays ⟨['M']⟩ =
      .error (.maintainerError "set_weekdays got empty Weekdays") ∧
    Meeting.empty.set_weekdays ⟨[]⟩ =
      .ok { Meeting.empty with weekdays := some ⟨[]⟩ } :=
  ⟨rfl, rfl⟩

/-- C4: `Subterm` construction succeeds exactly when the argument list is
non-empty and has a truthy element; an empty or all-falsy argument list
fails with the library's error (`MaintainerError`, the spec's
`ConfigError`). -/
theorem c4_subterm_construction (args : List PyVal) :
    ((∃ s, Subterm.init args = .ok s) ↔
      args ≠ [] ∧ args.any PyVal.truthy = true) ∧
    ((args = [] ∨ args.any PyVal.truthy = false) →
      ∃ msg, Subterm.init args = .error (.maintainerError msg)) := by
  unfold Subterm.init
  by_cases h1 : args.isEmpty
  · rw [List.isEmpty_iff] at h1
    subst h1
    simp
  · rw [List.isEmpty_iff] at h1
    by_cases h2 : args.any PyVal.truthy <;>
      simp [List.isEmpty_iff, h1, h2]

/-- C5: `Date` / `Time` construction fails (with the library's error, the
spec's `ParseError`) exactly when the best-effort parser yields nothing
(`None`) or rejects the input (`ValueError`); on success the value carries
the parsed fields. -/
theorem c5_parse_contract (parse : String → ParseOutcome) (s : String) :
    (∀ dt, parse s = .parsed dt →
      Date.init parse s = .ok ⟨dt.year, dt.month, dt.day⟩ ∧
      Time.init parse s = .ok ⟨dt.hour, dt.minute⟩) ∧
    ((parse s = .noResult ∨ parse s = .valueError) →
      Date.init parse s =
        .error (.maintainerError ("Date got invalid string: " ++ s)) ∧
      Time.init parse s =
        .error (.maintainerError ("Time got invalid string: " ++ s))) := by
  constructor
  · intro dt h
    simp [Date.init, Time.init, h]
  · rintro (h | h) <;> simp [Date.init, Time.init, h]

/-- C6: `add_course` keys a course by its code: starting from an empty
result every sequence of adds keeps the keys unique, an add with an
already-present code overwrites (last write wins, the stored course at that
code is the newly added one), and a warning — not an error — is emitted
exactly when the code was already present. -/
theorem c6_add_course_keying :
    (∀ cs : List Course,
      (((cs.foldl (fun r c => (r.add_course c).1)
        (⟨[]⟩ : ScraperResult)).courses.map Prod.fst)).Nodup) ∧
    (∀ (r : ScraperResult) (c : Course),
      dictLookup (r.add_course c).1.courses c.get_code = some c) ∧
    (∀ (r : ScraperResult) (c : Course),
      (r.add_course c).2 ≠ [] ↔ c.get_code ∈ r.courses.map Prod.fst) := by
  refine ⟨fun cs => add_course_fold_nodup cs ⟨[]⟩ (by simp), ?_, ?_⟩
  · intro r c
    simpa [ScraperResult.add_course] using
      dictLookup_dictInsert r.courses c.get_code c
  · intro r c
    by_cases hm : c.get_code ∈ r.courses.map Prod.fst <;>
      simp [ScraperResult.add_course, hm]

/-- C7: with a `refine` that never fails, the second of two consecutive
orchestrator invocations (the second one merging against whatever the first
persisted) ends with an empty pending set, writes no checkpoint, and
finishes `Completed`. -/
theorem c7_orchestrator_fixpoint (refine : Course → RefineOutcome)
    (runResult : List Course) (h : ∀ c, refine c ≠ RefineOutcome.failed) :
    (orchestrate refine runResult
      (orchestrate refine runResult none).saved).pending = [] ∧
    (orchestrate refine runResult
      (orchestrate refine runResult none).saved).saved = none ∧
    (orchestrate refine runResult
      (orchestrate refine runResult none).saved).final = OrchState.Completed :=
  orchestrate_noFail refine runResult (orchestrate refine runResult none).saved h

/-- C7 witness: a concrete always-succeeding refine over a one-course run. -/
theorem c7_orchestrator_fixpoint_witness :
    (orchestrate (fun _ => RefineOutcome.unchanged) [⟨"A", none⟩]
      (orchestrate (fun _ => RefineOutcome.unchanged) [⟨"A", none⟩]
        none).saved).pending = [] ∧
    (orchestrate (fun _ => RefineOutcome.unchanged) [⟨"A", none⟩]
      (orchestrate (fun _ => RefineOutcome.unchanged) [⟨"A", none⟩]
        none).saved).saved = none ∧
    (orchestrate (fun _ => RefineOutcome.unchanged) [⟨"A", none⟩]
      (orchestrate (fun _ => RefineOutcome.unchanged) [⟨"A", none⟩]
        none).saved).final = OrchState.Completed :=
  c7_orchestrator_fixpoint (fun _ => RefineOutcome.unchanged) [⟨"A", none⟩]
    (fun _ hc => RefineOutcome.noConfusion hc)

/-- C8: the named subterm constants are built from the general boolean-tuple
constructor with exactly the advertised slots. -/
theorem c8_named_subterm_constants :
    FullTerm = .ok ⟨[true]⟩ ∧
    FirstHalfTerm = .ok ⟨[true, false]⟩ ∧
    SecondHalfTerm = .ok ⟨[false, true]⟩ ∧
    FirstThirdTerm = .ok ⟨[true, false, false]⟩ ∧
    MiddleThirdTerm = .ok ⟨[false, true, false]⟩ ∧
    LastThirdTerm = .ok ⟨[false, false, true]⟩ ∧
    FirstAndMiddleThirdTerms = .ok ⟨[true, true, false]⟩ ∧
    MiddleAndLastThirdTerms = .ok ⟨[false, true, true]⟩ :=
  ⟨rfl, rfl, rfl, rfl, rfl, rfl, rfl, rfl⟩

/-- C9: a successful `Subterm` construction stores one slot per constructor
argument, each the boolean coercion of that argument (the stored tuple is
`tuple(map(bool, subterms))`). -/
theorem c9_subterm_slots (args : List PyVal) (s : Subterm)
    (h : Subterm.init args = .ok s) :
    s.subterms.length = args.length ∧ s.subterms = args.map PyVal.truthy := by
  unfold Subterm.init at h
  by_cases h1 : args.isEmpty
  · simp [h1] at h
  · by_cases h2 : args.any PyVal.truthy
    · simp [h1, h2] at h
      subst h
      simp
    · simp [h1, h2] at h

/-- C9 witness: a construction from a truthy non-boolean and a falsy
`None`. -/
theorem c9_subterm_slots_witness :
    (⟨[true, false]⟩ : Subterm).subterms.length =
      [PyVal.pyInt 5, PyVal.pyNone].length ∧
    (⟨[true, false]⟩ : Subterm).subterms =
      [PyVal.pyInt 5, PyVal.pyNone].map PyVal.truthy :=
  c9_subterm_slots [PyVal.pyInt 5, PyVal.pyNone] ⟨[true, false]⟩ rfl

/-- C10: `set_subterm` never raises for a `Subterm` argument, runs no date
or time check, stores the subterm, and leaves every other field of the
meeting unchanged. -/
theorem c10_set_subterm_frame (m : Meeting) (st : Subterm) :
    ∃ m2, m.set_subterm st = .ok m2 ∧
      m2.subterm = some st ∧
      m2.start_date = m.start_date ∧
      m2.end_date = m.end_date ∧
      m2.weekdays = m.weekdays ∧
      m2.start_time = m.start_time ∧
      m2.end_time = m.end_time ∧
      m2.location = m.location :=
  ⟨{ m with subterm := some st }, rfl, rfl, rfl, rfl, rfl, rfl, rfl, rfl⟩

end Hyperschedule
